import Mathlib

/-!
Shallow embedding of the x2md node proof-of-concept converter
(src/node-poc/services/converter.js) and theorems about its behaviour.

Modelling decisions:
* File buffers are modelled as their decoded text (`String`); every cell value
  is a `String` (the source coerces primitives to string when joining).
* The four external parsing libraries (mammoth, pdf-parse, xlsx, csv-parse)
  are black boxes per the spec; they are modelled as a record of oracle
  functions (`Parsers`) that either return structured data or raise with a
  message (`Except String`).
* JavaScript string primitives used by the dispatcher (`split`, `pop`,
  `toLowerCase`, `join`) are embedded structurally over `String.data` so that
  they evaluate inside the kernel.
-/

/-- Embedding of JavaScript `String.prototype.split` with a one-character
separator, on the character list of the string.  `"".split(sep)` is `[""]`,
and a trailing separator yields a trailing empty group, as in JavaScript. -/
def splitChars (sep : Char) : List Char → List (List Char)
  | [] => [[]]
  | c :: rest =>
    match splitChars sep rest with
    | [] => [[c]]
    | g :: gs => if c = sep then [] :: g :: gs else (c :: g) :: gs

/-- JavaScript `s.split(sep)` for a one-character separator. -/
def jsSplit (s : String) (sep : Char) : List String :=
  (splitChars sep s.data).map (fun l => ⟨l⟩)

/-- JavaScript `s.toLowerCase()` (ASCII range, which covers every extension
the dispatcher compares against). -/
def jsToLowerCase (s : String) : String :=
  ⟨s.data.map Char.toLower⟩

/-- converter.js line 8: `originalName.split('.').pop().toLowerCase()`.
`Array.prototype.pop` on the result of `split` takes the last element;
`split` never returns an empty array, so the default of `getLastD` is dead. -/
def getExtension (originalName : String) : String :=
  jsToLowerCase ((jsSplit originalName '.').getLastD "")

/-- One rendered table line, converter.js lines 81/82/91:
`'| ' + cells.join(' | ') + ' |\n'`. -/
def renderLine (cells : List String) : String :=
  "| " ++ String.intercalate " | " cells ++ " |\n"

/-- converter.js lines 86-89: `const paddedRow = [...row];
while (paddedRow.length < header.length) paddedRow.push('');`
The loop pushes `''` onto (a copy of) the row while it is shorter than the
header; a row at least as long as the header is left untouched. -/
def padRow (header row : List String) : List String :=
  if _h : row.length < header.length then padRow header (row ++ [""]) else row
termination_by header.length - row.length
decreasing_by simp [List.length_append]; omega

/-- converter.js lines 75-94, `jsonToMarkdownTable(rows)`: empty input gives
`''`; otherwise the header line, the `---` separator line (one `---` per
header cell), then one line per body row rendered after padding. -/
def jsonToMarkdownTable (rows : List (List String)) : String :=
  match rows with
  | [] => ""
  | header :: body =>
    let md := renderLine header ++ renderLine (header.map fun _ => "---")
    body.foldl (fun markdown row => markdown ++ renderLine (padRow header row)) md

/-- The external parsing libraries, as black-box oracles per the spec: each
takes the file buffer and returns its structured result or raises a message.
The xlsx oracle returns the workbook as the sheets in document order, each a
name paired with its grid of rows (`sheet_to_json` with `header: 1`). -/
structure Parsers where
  mammoth : String → Except String String
  pdf : String → Except String String
  xlsx : String → Except String (List (String × List (List String)))
  csv : String → Except String (List (List String))

/-- converter.js lines 24-31, `convertDocx`: returns the raw text, wrapping a
parser failure as `DOCX conversion failed: <message>`. -/
def convertDocx (P : Parsers) (buffer : String) : Except String String :=
  match P.mammoth buffer with
  | .ok result => .ok result
  | .error e => .error ("DOCX conversion failed: " ++ e)

/-- converter.js lines 33-40, `convertPdf`. -/
def convertPdf (P : Parsers) (buffer : String) : Except String String :=
  match P.pdf buffer with
  | .ok data => .ok data
  | .error e => .error ("PDF conversion failed: " ++ e)

/-- converter.js lines 46-55, the `forEach` over `workbook.SheetNames`:
markdown accumulates `## Sheet: <name>`, the rendered table and a blank
line for every sheet whose grid has at least one row; empty sheets add
nothing. -/
def renderWorkbook (sheets : List (String × List (List String))) : String :=
  sheets.foldl
    (fun markdown s =>
      if s.2.length > 0 then
        markdown ++ ("## Sheet: " ++ s.1 ++ "\n\n") ++ jsonToMarkdownTable s.2 ++ "\n\n"
      else markdown)
    ""

/-- converter.js lines 42-62, `convertXlsx`. -/
def convertXlsx (P : Parsers) (buffer : String) : Except String String :=
  match P.xlsx buffer with
  | .ok workbook => .ok (renderWorkbook workbook)
  | .error e => .error ("XLSX conversion failed: " ++ e)

/-- converter.js lines 64-73, `convertCsv`: parsed records go straight to the
table renderer. -/
def convertCsv (P : Parsers) (buffer : String) : Except String String :=
  match P.csv buffer with
  | .ok records => .ok (jsonToMarkdownTable records)
  | .error e => .error ("CSV conversion failed: " ++ e)

/-- converter.js lines 7-22, `convert(fileBuffer, mimetype, originalName)`:
dispatch on the lowercased text after the last `.` of the name; the four
known extensions route to their converters, anything else raises
`Unsupported file type: <extension>`.  `mimetype` is accepted and ignored,
as in the source. -/
def convert (P : Parsers) (fileBuffer : String) (mimetype : String)
    (originalName : String) : Except String String :=
  let extension := getExtension originalName
  match extension with
  | "docx" => convertDocx P fileBuffer
  | "pdf" => convertPdf P fileBuffer
  | "xlsx" => convertXlsx P fileBuffer
  | "csv" => convertCsv P fileBuffer
  | _ => .error ("Unsupported file type: " ++ extension)

/-- Modelled from the spec: the CSV parsing library (`csv-parse` with
`skip_empty_lines`, external to this repository) is described as
"delimiter-aware, blank-line-skipping" and "parses into rows (blank lines
skipped)"; it splits the text into lines, drops empty lines, and splits each
remaining line on commas. -/
def csvParseSpec (input : String) : List (List String) :=
  ((jsSplit input '\n').filter (fun line => line ≠ "")).map (fun line => jsSplit line ',')

/-- A concrete oracle record for witnesses: text extractors echo the buffer,
the workbook is empty, and CSV parses via the spec model. -/
def specParsers : Parsers :=
  ⟨fun b => .ok b, fun b => .ok b, fun _ => .ok [], fun b => .ok (csvParseSpec b)⟩

/-- A concrete oracle record whose every parser raises with message `boom`,
for witnesses of the error-wrapping theorems. -/
def failParsers : Parsers :=
  ⟨fun _ => .error "boom", fun _ => .error "boom",
   fun _ => .error "boom", fun _ => .error "boom"⟩

/-- Concatenation of a list of already-terminated lines. -/
def concatLines : List String → String
  | [] => ""
  | s :: rest => s ++ concatLines rest

/-- What one sheet contributes to the XLSX output: nothing when its grid is
empty, otherwise exactly one `## Sheet:` heading, its table, and a blank
line. -/
def sheetFragment (s : String × List (List String)) : String :=
  if s.2.length > 0 then
    "## Sheet: " ++ s.1 ++ "\n\n" ++ jsonToMarkdownTable s.2 ++ "\n\n"
  else ""

/-- State-passing embedding of one body-row step of `jsonToMarkdownTable`,
making the array writes of converter.js lines 86-89 explicit:
`const paddedRow = [...row]` copies the row (embedded as a fold rebuilding
the list), the while-loop pushes only onto that copy, and the original row
is returned unchanged next to the text the step appends. -/
def renderBodyRow (header row : List String) : String × List String :=
  (renderLine (padRow header (row.foldr List.cons [])), row)

/-- State-passing embedding of `jsonToMarkdownTable`: besides the rendered
string it returns the rows value as left behind by the source's iteration. -/
def jsonToMarkdownTableSt (rows : List (List String)) :
    String × List (List String) :=
  match rows with
  | [] => ("", rows)
  | header :: body =>
    let md := renderLine header ++ renderLine (header.map fun _ => "---")
    let steps := body.map (renderBodyRow header)
    (steps.foldl (fun markdown p => markdown ++ p.1) md,
     header :: steps.map Prod.snd)

theorem padRow_eq_append (header : List String) :
    ∀ (n : Nat) (row : List String), header.length - row.length = n →
      padRow header row = row ++ List.replicate (header.length - row.length) "" := by
  intro n
  induction n with
  | zero =>
    intro row h
    rw [padRow]
    have hn : ¬ row.length < header.length := by omega
    simp [hn, h]
  | succ n ih =>
    intro row h
    have hlt : row.length < header.length := by omega
    rw [padRow]
    rw [dif_pos hlt]
    have hlen : header.length - (row ++ [""]).length = n := by
      simp [List.length_append]; omega
    rw [ih (row ++ [""]) hlen, hlen]
    have hsucc : header.length - row.length = n + 1 := h
    rw [hsucc]
    simp [List.append_assoc, List.replicate_succ]

/-- The padding loop appends exactly `header.length - row.length` empty
cells (zero of them when the row is at least header-sized). -/
theorem padRow_spec (header row : List String) :
    padRow header row = row ++ List.replicate (header.length - row.length) "" :=
  padRow_eq_append header _ row rfl

theorem foldl_append_eq {α : Type} (f : α → String) :
    ∀ (l : List α) (init : String),
      l.foldl (fun md x => md ++ f x) init = init ++ concatLines (l.map f) := by
  intro l
  induction l with
  | nil => intro init; simp [concatLines]
  | cons a t ih =>
    intro init
    simp [concatLines, ih, String.append_assoc]

theorem foldr_cons_self (l : List String) : l.foldr List.cons [] = l := by
  induction l with
  | nil => rfl
  | cons a t ih => simp [ih]

/-- C1: for every non-empty row sequence, the rendered table is the header
line, then exactly one separator line whose cell count equals the header's
length with every cell `---`, then one line per body row in original order,
each body row extended by `header.length - row.length` empty cells (so a
shorter row is padded to exactly the header's length, and a longer row keeps
all of its cells: the padded row's length is `max header.length row.length`,
never a truncation). -/
theorem table_shape (header : List String) (body : List (List String)) :
    jsonToMarkdownTable (header :: body) =
      concatLines (renderLine header ::
        renderLine (List.replicate header.length "---") ::
        body.map (fun row =>
          renderLine (row ++ List.replicate (header.length - row.length) ""))) ∧
    ∀ row : List String,
      (row ++ List.replicate (header.length - row.length) "").length =
        max header.length row.length := by
  constructor
  · have h1 : jsonToMarkdownTable (header :: body) =
        (renderLine header ++ renderLine (header.map fun _ => "---")) ++
          concatLines (body.map fun row => renderLine (padRow header row)) := by
      simp only [jsonToMarkdownTable]
      exact foldl_append_eq _ body _
    rw [h1]
    simp only [padRow_spec, List.map_const', concatLines, String.append_assoc]
  · intro row
    simp [List.length_append]
    omega

/-- C7: the result of `convert` depends only on the buffer and the file
name; two calls that differ only in the declared MIME type agree. -/
theorem mimetype_ignored (P : Parsers) (buffer name m1 m2 : String) :
    convert P buffer m1 name = convert P buffer m2 name := rfl

/-- C8: whenever an underlying format parser raises with a message, the
corresponding converter fails with a single error whose message contains the
parser's message verbatim after the format-specific introduction, and no
partial Markdown value is returned. -/
theorem parser_failure_wrapped (P : Parsers) (buffer msg : String) :
    (P.mammoth buffer = Except.error msg →
      convertDocx P buffer = Except.error ("DOCX conversion failed: " ++ msg)) ∧
    (P.pdf buffer = Except.error msg →
      convertPdf P buffer = Except.error ("PDF conversion failed: " ++ msg)) ∧
    (P.xlsx buffer = Except.error msg →
      convertXlsx P buffer = Except.error ("XLSX conversion failed: " ++ msg)) ∧
    (P.csv buffer = Except.error msg →
      convertCsv P buffer = Except.error ("CSV conversion failed: " ++ msg)) := by
  refine ⟨fun h => ?_, fun h => ?_, fun h => ?_, fun h => ?_⟩ <;>
    simp [convertDocx, convertPdf, convertXlsx, convertCsv, h]

/-- Witness for C8 at an oracle whose every parser raises `boom`. -/
theorem parser_failure_wrapped_witness :
    failParsers.mammoth "b" = Except.error "boom" ∧
    convertDocx failParsers "b" = Except.error "DOCX conversion failed: boom" ∧
    convertPdf failParsers "b" = Except.error "PDF conversion failed: boom" ∧
    convertXlsx failParsers "b" = Except.error "XLSX conversion failed: boom" ∧
    convertCsv failParsers "b" = Except.error "CSV conversion failed: boom" := by
  have h := parser_failure_wrapped failParsers "b" "boom"
  exact ⟨rfl, h.1 rfl, h.2.1 rfl, h.2.2.1 rfl, h.2.2.2 rfl⟩

/-- C9: the table renderer leaves its input unchanged.  In the state-passing
embedding, whose writes mirror the source's (the copy `[...row]` receives
every push), the rows left behind are exactly the rows passed in, and the
rendered string agrees with the pure embedding. -/
theorem renderer_preserves_rows (rows : List (List String)) :
    (jsonToMarkdownTableSt rows).2 = rows ∧
    (jsonToMarkdownTableSt rows).1 = jsonToMarkdownTable rows := by
  cases rows with
  | nil => exact ⟨rfl, rfl⟩
  | cons header body =>
    constructor
    · have hsnd : Prod.snd ∘ renderBodyRow header = id := by
        funext row
        rfl
      simp [jsonToMarkdownTableSt, List.map_map, hsnd]
    · simp [jsonToMarkdownTableSt, jsonToMarkdownTable, renderBodyRow,
        List.foldl_map, foldr_cons_self]

/-- C10: a file name with no `.` is treated whole as the extension: the name
`csv` routes to the CSV converter, while the name `README` fails with an
unsupported-format error naming `readme`. -/
theorem no_dot_whole_name (P : Parsers) (buffer m : String) :
    getExtension "csv" = "csv" ∧
    convert P buffer m "csv" = convertCsv P buffer ∧
    getExtension "README" = "readme" ∧
    convert P buffer m "README" = Except.error "Unsupported file type: readme" := by
  exact ⟨by decide, rfl, by decide, rfl⟩

/-- C2: on the CSV text `Name,Age,City\nAlice,30,New York\n` and a file name
whose extension is `csv`, `convert` returns exactly the three-line table
(header, `---` separator, data row), each line's cells joined with `" | "`
and wrapped in leading and trailing pipes. -/
theorem convert_csv_example (P : Parsers) (m name : String)
    (hcsv : P.csv = fun b => Except.ok (csvParseSpec b))
    (hname : getExtension name = "csv") :
    convert P "Name,Age,City\nAlice,30,New York\n" m name =
      Except.ok "| Name | Age | City |\n| --- | --- | --- |\n| Alice | 30 | New York |\n" := by
  unfold convert
  rw [hname]
  show convertCsv P _ = _
  unfold convertCsv
  rw [hcsv]
  have hparse : csvParseSpec "Name,Age,City\nAlice,30,New York\n" =
      [["Name", "Age", "City"], ["Alice", "30", "New York"]] := by decide
  simp only [hparse]
  simp only [jsonToMarkdownTable, padRow_spec, renderLine, List.foldl_cons,
    List.foldl_nil, List.map_cons, List.map_nil]
  rfl

/-- Witness for C2 at fully concrete inputs. -/
theorem convert_csv_example_witness :
    specParsers.csv = (fun b => Except.ok (csvParseSpec b)) ∧
    getExtension "data.csv" = "csv" ∧
    convert specParsers "Name,Age,City\nAlice,30,New York\n" "text/csv" "data.csv" =
      Except.ok "| Name | Age | City |\n| --- | --- | --- |\n| Alice | 30 | New York |\n" :=
  ⟨rfl, by decide, convert_csv_example specParsers "text/csv" "data.csv" rfl (by decide)⟩

/-- C3 counterexample: a `.txt` file is not converted; `convert` fails with
the unsupported-format error, refuting the claim that TXT input yields a
Markdown string. -/
theorem txt_unsupported_counterexample :
    convert specParsers "hello world" "text/plain" "notes.txt" =
      Except.error "Unsupported file type: txt" := rfl

/-- C3 amended: the dispatcher supports only docx, pdf, xlsx and csv; every
file name whose extension is `txt` makes `convert` fail with
`Unsupported file type: txt`, and no conversion routine runs. -/
theorem txt_extension_unsupported (P : Parsers) (buffer m name : String)
    (h : getExtension name = "txt") :
    convert P buffer m name = Except.error "Unsupported file type: txt" := by
  unfold convert
  rw [h]
  rfl

/-- Witness for the amended C3. -/
theorem txt_extension_unsupported_witness :
    getExtension "readme.TXT" = "txt" ∧
    convert specParsers "abc" "text/plain" "readme.TXT" =
      Except.error "Unsupported file type: txt" :=
  ⟨by decide,
   txt_extension_unsupported specParsers "abc" "text/plain" "readme.TXT" (by decide)⟩

/-- C4: any file name whose lowercased text after the last `.` is none of
the four known extensions makes `convert` fail with an unsupported-format
error naming that extension, and the result does not depend on the parsing
routines (none is invoked). -/
theorem unknown_extension_error (P : Parsers) (buffer m name : String)
    (h : getExtension name ∉ (["docx", "pdf", "xlsx", "csv"] : List String)) :
    convert P buffer m name =
      Except.error ("Unsupported file type: " ++ getExtension name) ∧
    ∀ Q : Parsers, convert Q buffer m name = convert P buffer m name := by
  have key : ∀ Q : Parsers, convert Q buffer m name =
      Except.error ("Unsupported file type: " ++ getExtension name) := by
    intro Q
    simp only [convert]
    split <;> simp_all
  exact ⟨key P, fun Q => (key Q).trans (key P).symm⟩

/-- Witness for C4 at the name `file.xyz`, whose error names `xyz`. -/
theorem unknown_extension_error_witness :
    getExtension "file.xyz" ∉ (["docx", "pdf", "xlsx", "csv"] : List String) ∧
    convert specParsers "buf" "application/json" "file.xyz" =
      Except.error "Unsupported file type: xyz" := by
  refine ⟨by decide, ?_⟩
  have h :=
    (unknown_extension_error specParsers "buf" "application/json" "file.xyz" (by decide)).1
  rw [h]
  rfl

/-- C5: the XLSX renderer walks the sheets in document order; a sheet with
zero rows contributes the empty fragment (no heading, no table), and a sheet
with at least one row contributes exactly one `## Sheet: <name>` heading
followed by its rows rendered as a table. -/
theorem xlsx_sheet_rendering (sheets : List (String × List (List String))) :
    renderWorkbook sheets = concatLines (sheets.map sheetFragment) ∧
    (∀ name : String, sheetFragment (name, []) = "") ∧
    (∀ (name : String) (r : List String) (rest : List (List String)),
      sheetFragment (name, r :: rest) =
        "## Sheet: " ++ name ++ "\n\n" ++ jsonToMarkdownTable (r :: rest) ++ "\n\n") := by
  refine ⟨?_, fun name => rfl, fun name r rest => ?_⟩
  · have hfun : (fun (markdown : String) (s : String × List (List String)) =>
        if s.2.length > 0 then
          markdown ++ ("## Sheet: " ++ s.1 ++ "\n\n") ++ jsonToMarkdownTable s.2 ++ "\n\n"
        else markdown) = fun markdown s => markdown ++ sheetFragment s := by
      funext markdown s
      by_cases h : s.2.length > 0 <;>
        simp [sheetFragment, h, String.append_assoc, String.append_empty]
    unfold renderWorkbook
    rw [hfun, foldl_append_eq]
    exact String.empty_append _
  · simp [sheetFragment, String.append_assoc]

/-- C6: zero rows render to the empty string, both at the table renderer and
through `convert` when the CSV parse of the buffer yields no rows. -/
theorem empty_rows_empty_output (P : Parsers) (buffer m name : String)
    (hname : getExtension name = "csv") (hparse : P.csv buffer = Except.ok []) :
    jsonToMarkdownTable ([] : List (List String)) = "" ∧
    convert P buffer m name = Except.ok "" := by
  refine ⟨rfl, ?_⟩
  unfold convert
  rw [hname]
  show convertCsv P buffer = _
  unfold convertCsv
  rw [hparse]
  rfl

/-- Witness for C6 on a buffer of blank lines only. -/
theorem empty_rows_empty_output_witness :
    getExtension "empty.csv" = "csv" ∧
    specParsers.csv "\n\n" = Except.ok [] ∧
    (jsonToMarkdownTable ([] : List (List String)) = "" ∧
      convert specParsers "\n\n" "text/csv" "empty.csv" = Except.ok "") :=
  ⟨by decide, rfl,
   empty_rows_empty_output specParsers "\n\n" "text/csv" "empty.csv" (by decide) rfl⟩
